import Mathlib

/-!
Verification of `src/geoplot.py` (the `GeoPlot` visualization engine).

The embedding models the module shallowly:
* nested simulation state snapshots are a `Value` tree of numbers, arrays and
  string-keyed mappings;
* machine scalars are `Int` (the claims never exercise fractional values);
* instants (`pd.Timestamp`) are integer second offsets, and
  `pd.Timestamp.utcnow()` — the one nondeterministic input of `render` — is an
  explicit `start_time` parameter;
* fallible Python operations (indexing, missing dictionary keys, `np.array`
  coercions) return `Option`;
* the two file writes are modelled by returning the exact text that would be
  written (`dumpDocument`, mirroring `json.dump(..., ensure_ascii=False,
  indent=2)`) together with the values substituted into the HTML template.
-/

namespace GeoplotModel

/-- A nested state value: a number, an array, or a string-keyed mapping.
State snapshots handed to `render` are `Value` trees. -/
inductive Value where
  | num (n : Int)
  | arr (elems : List Value)
  | dict (entries : List (String × Value))

/-- Modelled from the spec: the field accessor `get_by_path` is imported from
`agent_torch.core.helpers`, which is outside this repository. Per §4.1 (Field
Extractor) it follows the path segments through nested mappings and fails with
a lookup error when a segment is absent or the value is not traversable. -/
def get_by_path (state : Value) : List String → Option Value
  | [] => some state
  | seg :: rest =>
    match state with
    | Value.dict entries =>
      match entries.lookup seg with
      | some child => get_by_path child rest
      | none => none
    | _ => none

/-- Splitting a character list on `/` separators, mirroring
`re.split("/", var)` on the path strings this module receives. -/
def splitSlash : List Char → List (List Char)
  | [] => [[]]
  | c :: rest =>
    match splitSlash rest with
    | g :: gs => if c = '/' then [] :: g :: gs else (c :: g) :: gs
    | [] => if c = '/' then [[], []] else [[c]]

/-- `read_var(state, var)` (geoplot.py line 175): extract a nested variable
using a path like `agents/consumers/coordinates`. -/
def read_var (state : Value) (var : String) : Option Value :=
  get_by_path state ((splitSlash var.toList).map (fun cs => String.mk cs))

/-- `np.array(v).tolist()` read as an entity-by-coordinate table
(geoplot.py line 216): a rank-2 numeric array becomes a list of integer rows;
anything else fails. -/
def asCoords : Value → Option (List (List Int))
  | Value.arr rows =>
    rows.mapM (fun row =>
      match row with
      | Value.arr cells =>
        cells.mapM (fun cell =>
          match cell with
          | Value.num n => some n
          | _ => none)
      | _ => none)
  | _ => none

mutual
/-- `np.array(v).flatten().tolist()` (geoplot.py line 218): the scalars of a
nested numeric array in row-major order; mappings are not numeric arrays and
fail. -/
def flattenValue : Value → Option (List Int)
  | Value.num n => some [n]
  | Value.arr elems => flattenList elems
  | Value.dict _ => none

/-- Flattening of each element of an array in order. -/
def flattenList : List Value → Option (List Int)
  | [] => some []
  | v :: vs => do
    let x ← flattenValue v
    let xs ← flattenList vs
    pure (x ++ xs)
end

/-- A value bound in the `options` mapping given to `GeoPlot.__init__`.
The constructor never validates these, so any key may hold a string or a
number. -/
inductive OptValue where
  | str (s : String)
  | num (n : Int)

/-- The value, when it is a string (as `re.split` requires). -/
def OptValue.asStr? : OptValue → Option String
  | OptValue.str s => some s
  | _ => none

/-- The value, when it is a number (as the `step_time` arithmetic requires). -/
def OptValue.asInt? : OptValue → Option Int
  | OptValue.num n => some n
  | _ => none

/-- The `simulation_metadata` section of the simulation config read by
`render`. -/
structure SimulationMetadata where
  name : String
  num_episodes : Nat
  num_steps_per_episode : Nat

/-- The simulation config collaborator: only `simulation_metadata` is read. -/
structure Config where
  simulation_metadata : SimulationMetadata

/-- The `GeoPlot` engine state after construction: the config plus the five
option values, stored unvalidated exactly as `__init__` unpacks them. -/
structure GeoPlot where
  config : Config
  cesium_token : OptValue
  step_time : OptValue
  entity_position : OptValue
  entity_property : OptValue
  visualization_type : OptValue

/-- `GeoPlot.__init__` (geoplot.py lines 179-202): unpack the five required
options; a missing key raises `KeyError` (here: `none`). No value is
validated. -/
def mkGeoPlot (config : Config) (options : List (String × OptValue)) :
    Option GeoPlot := do
  let tok ← options.lookup "cesium_token"
  let st ← options.lookup "step_time"
  let coord ← options.lookup "coordinates"
  let feat ← options.lookup "feature"
  let vt ← options.lookup "visualization_type"
  pure { config := config, cesium_token := tok, step_time := st,
         entity_position := coord, entity_property := feat,
         visualization_type := vt }

/-- One iteration of the reduction loop (geoplot.py lines 214-219): take the
episode's final step's snapshot (`state_trajectory[i][-1]`, failing on an empty
episode), overwrite `coords` with the position table read at the coordinates
path, and append the flattened feature array read at the feature path. -/
def reduceStep (posPath featPath : OptValue)
    (acc : List (List Int) × List (List Int)) (episode : List Value) :
    Option (List (List Int) × List (List Int)) := do
  let final_state ← episode.getLast?
  let pvar ← posPath.asStr?
  let coords ← (read_var final_state pvar).bind asCoords
  let fvar ← featPath.asStr?
  let v ← (read_var final_state fvar).bind flattenValue
  pure (coords, acc.2 ++ [v])

/-- The reduction loop over a prefix of the trajectory, threading the
`(coords, values)` accumulator. -/
def reduceLoop (posPath featPath : OptValue) :
    List (List Value) → List (List Int) × List (List Int) →
    Option (List (List Int) × List (List Int))
  | [], acc => some acc
  | ep :: rest, acc => do
    let acc2 ← reduceStep posPath featPath acc ep
    reduceLoop posPath featPath rest acc2

/-- The trajectory reducer (geoplot.py lines 213-219): visit every episode
except the last (`range(0, len(state_trajectory) - 1)`), starting from
`coords, values = [], []`. -/
def reduceTrajectory (posPath featPath : OptValue)
    (state_trajectory : List (List Value)) :
    Option (List (List Int) × List (List Int)) :=
  reduceLoop posPath featPath
    (state_trajectory.take (state_trajectory.length - 1)) ([], [])

/-- The timestamp list (geoplot.py lines 222-229): entry `i` is
`start_time + pd.Timedelta(seconds=i * step_time)`, for `i` below the
configured count. -/
def timestamps (start_time step_time : Int) (count : Nat) : List Int :=
  (List.range count).map (fun (i : Nat) => start_time + (i : Int) * step_time)

/-- `time.isoformat()` on an instant. Instants are integer second offsets and
the ISO-8601 rendering is modelled as an injective textual encoding of the
instant; the claims depend only on which instant is rendered, not on the date
syntax. -/
def isoformat (t : Int) : String := toString t

/-- One GeoJSON `Feature` as built on geoplot.py lines 236-249: the
`geometry.coordinates` pair, and the `id`, `value`, `time` properties. The
constant `"type"` tags are supplied by the serializer. -/
structure Feature where
  coordinates : List Int
  id : String
  value : Int
  time : String

/-- Building one Feature for entity `i` (geoplot.py lines 236-249):
`coordinates = [coord[1], coord[0]]`, `id = str(i)`,
`value = value_list[i]`, `time = time.isoformat()`; any out-of-range index
raises (here: `none`). -/
def buildFeature (i : Nat) (coord : List Int) (time : Int)
    (value_list : List Int) : Option Feature := do
  let lon ← coord[1]?
  let lat ← coord[0]?
  let v ← value_list[i]?
  pure { coordinates := [lon, lat], id := toString i, value := v,
         time := isoformat time }

/-- The inner loop of the builder: one Feature per
`(time, value_list)` pair of `zip(timestamps, values)`. -/
def buildFeatures (i : Nat) (coord : List Int) :
    List (Int × List Int) → Option (List Feature)
  | [] => some []
  | (time, value_list) :: rest => do
    let f ← buildFeature i coord time value_list
    let fs ← buildFeatures i coord rest
    pure (f :: fs)

/-- The outer loop of the builder: one FeatureCollection (feature list) per
`(i, coord)` entry of `enumerate(coords)`. -/
def buildCollections (pairs : List (Int × List Int)) :
    List (Nat × List Int) → Option (List (List Feature))
  | [] => some []
  | (i, coord) :: rest => do
    let fc ← buildFeatures i coord pairs
    let fcs ← buildCollections pairs rest
    pure (fc :: fcs)

/-- The GeoJSON builder (geoplot.py lines 231-250): for each entity of the
position table, one collection of Features over the zip-truncated
timestamp/value pairing. -/
def buildGeojsons (coords : List (List Int)) (ts : List Int)
    (values : List (List Int)) : Option (List (List Feature)) :=
  buildCollections (ts.zip values) coords.enum

/-- A run of `n` spaces (the indentation of `json.dump(..., indent=2)`). -/
def ind (n : Nat) : String := String.mk (List.replicate n ' ')

/-- Lower-case hexadecimal digit. -/
def hexDigit (n : Nat) : Char :=
  if n < 10 then Char.ofNat (48 + n) else Char.ofNat (87 + n)

/-- JSON string escaping as `json.dump(..., ensure_ascii=False)` performs it:
backslash, quote, the short control escapes, `\uXXXX` for the remaining
control characters, and every other character verbatim. -/
def escapeChar (c : Char) : List Char :=
  if c = '\\' then ['\\', '\\']
  else if c = '"' then ['\\', '"']
  else if c = '\n' then ['\\', 'n']
  else if c = '\t' then ['\\', 't']
  else if c = '\r' then ['\\', 'r']
  else if c = '\x08' then ['\\', 'b']
  else if c = '\x0c' then ['\\', 'f']
  else if c.toNat < 32 then
    ['\\', 'u', '0', '0', hexDigit (c.toNat / 16), hexDigit (c.toNat % 16)]
  else [c]

/-- A JSON string literal with its quotes. -/
def quoteStr (s : String) : String :=
  String.mk ('"' :: s.toList.foldr (fun c acc => escapeChar c ++ acc) ['"'])

/-- A JSON array of numbers, pretty-printed at indentation `pad`
(`json.dump` with `indent=2` puts each item on its own line at `pad + 2`
spaces and the closing bracket at `pad` spaces; an empty array is `[]`). -/
def dumpNumList (pad : Nat) : List Int → String
  | [] => "[]"
  | xs =>
    "[\n"
      ++ String.intercalate ",\n"
          (xs.map (fun n => ind (pad + 2) ++ toString n))
      ++ "\n" ++ ind pad ++ "]"

/-- One Feature object exactly as `json.dump(..., indent=2)` lays it out, with
the object's own indentation `pad`: keys in insertion order `type`,
`geometry` (`type`, `coordinates`), `properties` (`id`, `value`, `time`). -/
def dumpFeature (pad : Nat) (f : Feature) : String :=
  "\x7b\n"
    ++ ind (pad + 2) ++ quoteStr "type" ++ ": " ++ quoteStr "Feature" ++ ",\n"
    ++ ind (pad + 2) ++ quoteStr "geometry" ++ ": \x7b\n"
    ++ ind (pad + 4) ++ quoteStr "type" ++ ": " ++ quoteStr "Point" ++ ",\n"
    ++ ind (pad + 4) ++ quoteStr "coordinates" ++ ": "
    ++ dumpNumList (pad + 4) f.coordinates ++ "\n"
    ++ ind (pad + 2) ++ "\x7d,\n"
    ++ ind (pad + 2) ++ quoteStr "properties" ++ ": \x7b\n"
    ++ ind (pad + 4) ++ quoteStr "id" ++ ": " ++ quoteStr f.id ++ ",\n"
    ++ ind (pad + 4) ++ quoteStr "value" ++ ": " ++ toString f.value ++ ",\n"
    ++ ind (pad + 4) ++ quoteStr "time" ++ ": " ++ quoteStr f.time ++ "\n"
    ++ ind (pad + 2) ++ "\x7d\n"
    ++ ind pad ++ "\x7d"

/-- The `features` array of one FeatureCollection at indentation `pad`. -/
def dumpFeatureList (pad : Nat) : List Feature → String
  | [] => "[]"
  | fs =>
    "[\n"
      ++ String.intercalate ",\n"
          (fs.map (fun f => ind (pad + 2) ++ dumpFeature (pad + 2) f))
      ++ "\n" ++ ind pad ++ "]"

/-- One FeatureCollection object at indentation `pad`: keys `type`,
`features` in insertion order. -/
def dumpCollection (pad : Nat) (fc : List Feature) : String :=
  "\x7b\n"
    ++ ind (pad + 2) ++ quoteStr "type" ++ ": "
    ++ quoteStr "FeatureCollection" ++ ",\n"
    ++ ind (pad + 2) ++ quoteStr "features" ++ ": "
    ++ dumpFeatureList (pad + 2) fc ++ "\n"
    ++ ind pad ++ "\x7d"

/-- The text `json.dump(geojsons, f, ensure_ascii=False, indent=2)` writes to
`{name}.geojson` (geoplot.py lines 253-254): the document is the top-level
array of FeatureCollections. -/
def dumpDocument : List (List Feature) → String
  | [] => "[]"
  | fcs =>
    "[\n"
      ++ String.intercalate ",\n"
          (fcs.map (fun fc => ind 2 ++ dumpCollection 2 fc))
      ++ "\n]"

/-- The values substituted into the HTML template (geoplot.py lines 257-269).
The template text itself is a process-wide constant, so the substituted page
is a function of exactly these five values; the model records them rather than
the spliced page. -/
structure HtmlSubst where
  accessToken : OptValue
  startTime : String
  stopTime : String
  data : List (List Feature)
  visualType : OptValue

/-- Everything one `render` call produces: the two output paths, the GeoJSON
document value, the exact text written to the `.geojson` file, and the HTML
template substitutions. -/
structure RenderResult where
  geodataPath : String
  geoplotPath : String
  geojsons : List (List Feature)
  geojsonText : String
  html : HtmlSubst

/-- `GeoPlot.render` (geoplot.py lines 204-269). The wall-clock sample
`pd.Timestamp.utcnow()` is the explicit `start_time` argument; every other
input is the engine state and the trajectory. Failures (`KeyError`,
`IndexError`, `TypeError` on non-string paths or non-numeric step) are
`none`. -/
def render (gp : GeoPlot) (state_trajectory : List (List Value))
    (start_time : Int) : Option RenderResult := do
  let name := gp.config.simulation_metadata.name
  let red ← reduceTrajectory gp.entity_position gp.entity_property
    state_trajectory
  let coords := red.1
  let values := red.2
  let step ← gp.step_time.asInt?
  let count := gp.config.simulation_metadata.num_episodes *
    gp.config.simulation_metadata.num_steps_per_episode
  let ts := timestamps start_time step count
  let geojsons ← buildGeojsons coords ts values
  let t0 ← ts.head?
  let tN ← ts.getLast?
  pure { geodataPath := name ++ ".geojson",
         geoplotPath := name ++ ".html",
         geojsons := geojsons,
         geojsonText := dumpDocument geojsons,
         html := { accessToken := gp.cesium_token,
                   startTime := isoformat t0,
                   stopTime := isoformat tN,
                   data := geojsons,
                   visualType := gp.visualization_type } }

/-- A state snapshot holding a position table under key `p` and a feature
array under key `f`; used to exercise the model on concrete inputs. -/
def exampleSnapshot (ps : List (List Int)) (fs : List Int) : Value :=
  Value.dict [("p", Value.arr (ps.map (fun r => Value.arr (r.map Value.num)))),
              ("f", Value.arr (fs.map Value.num))]

/-- The spec §8 example trajectory: three episodes of one step each, two
entities at positions `[[1,2],[3,4]]`, per-episode features `[10,20]`,
`[30,40]`, `[50,60]`. -/
def exampleTrajectory : List (List Value) :=
  [[exampleSnapshot [[1, 2], [3, 4]] [10, 20]],
   [exampleSnapshot [[1, 2], [3, 4]] [30, 40]],
   [exampleSnapshot [[1, 2], [3, 4]] [50, 60]]]

/-- A fully configured engine over that trajectory's paths. -/
def exampleGeoPlot : GeoPlot :=
  { config := { simulation_metadata :=
      { name := "sim", num_episodes := 3, num_steps_per_episode := 1 } },
    cesium_token := OptValue.str "tok",
    step_time := OptValue.num 3600,
    entity_position := OptValue.str "p",
    entity_property := OptValue.str "f",
    visualization_type := OptValue.str "color" }

/-- The result of rendering the example trajectory at instant 0 (total when
the render succeeds, with an inert fallback otherwise). -/
def exampleRenderResult : RenderResult :=
  match render exampleGeoPlot exampleTrajectory 0 with
  | some r => r
  | none =>
    { geodataPath := "", geoplotPath := "", geojsons := [], geojsonText := "",
      html := { accessToken := OptValue.num 0, startTime := "", stopTime := "",
                data := [], visualType := OptValue.num 0 } }

/-- A two-episode, one-entity trajectory (only the first episode is
retained by the reducer). -/
def smallTrajectory : List (List Value) :=
  [[exampleSnapshot [[1, 2]] [5]], [exampleSnapshot [[1, 2]] [7]]]

/-- A one-slot engine over `smallTrajectory`'s paths. -/
def smallGeoPlot : GeoPlot :=
  { config := { simulation_metadata :=
      { name := "s", num_episodes := 1, num_steps_per_episode := 1 } },
    cesium_token := OptValue.str "tok",
    step_time := OptValue.num 60,
    entity_position := OptValue.str "p",
    entity_property := OptValue.str "f",
    visualization_type := OptValue.str "size" }

/-! ## Helper lemmas -/

theorem lt_length_of_getElem? {α : Type} {l : List α} {n : Nat} {a : α}
    (h : l[n]? = some a) : n < l.length := by
  by_contra hge
  rw [List.getElem?_eq_none (by omega)] at h
  exact Option.noConfusion h

theorem timestamps_length (s st : Int) (c : Nat) :
    (timestamps s st c).length = c := by
  unfold timestamps
  rw [List.length_map, List.length_range]

theorem timestamps_getElem?_iff (s st : Int) (c i : Nat) (a : Int) :
    (timestamps s st c)[i]? = some a ↔ i < c ∧ a = s + i * st := by
  constructor
  · intro h
    have hi : i < c := by
      by_contra hge
      have hnone : (timestamps s st c)[i]? = none :=
        List.getElem?_eq_none (by rw [timestamps_length]; omega)
      rw [hnone] at h
      exact Option.noConfusion h
    refine ⟨hi, ?_⟩
    unfold timestamps at h
    rw [List.getElem?_map, List.getElem?_range hi] at h
    simpa using h.symm
  · rintro ⟨hi, rfl⟩
    unfold timestamps
    rw [List.getElem?_map, List.getElem?_range hi]
    rfl

theorem timestamps_head? (s st : Int) (c : Nat) (h : 0 < c) :
    (timestamps s st c).head? = some s := by
  rw [List.head?_eq_getElem?, timestamps_getElem?_iff]
  exact ⟨h, by simp⟩

theorem timestamps_getLast? (s st : Int) (c : Nat) (h : 0 < c) :
    (timestamps s st c).getLast? = some (s + ((c - 1 : Nat) : Int) * st) := by
  rw [List.getLast?_eq_getElem?, timestamps_length, timestamps_getElem?_iff]
  exact ⟨by omega, rfl⟩

/-! ## Claim theorems -/

/-- Claim C4: for every start instant, positive step interval, and configured
episode and step counts, the generated timestamp sequence has exactly
`num_episodes * num_steps_per_episode` entries, starts at the start instant,
and every adjacent pair is strictly increasing with difference exactly the
step interval. -/
theorem timestamps_count_start_monotone (start step : Int) (ne ns : Nat)
    (hS : 0 < step) :
    (timestamps start step (ne * ns)).length = ne * ns ∧
    (0 < ne * ns → (timestamps start step (ne * ns)).head? = some start) ∧
    (∀ i a b, (timestamps start step (ne * ns))[i]? = some a →
      (timestamps start step (ne * ns))[i + 1]? = some b →
      a < b ∧ b - a = step) := by
  refine ⟨timestamps_length start step (ne * ns),
    fun h => timestamps_head? start step (ne * ns) h, ?_⟩
  intro i a b ha hb
  rw [timestamps_getElem?_iff] at ha hb
  obtain ⟨-, rfl⟩ := ha
  obtain ⟨-, rfl⟩ := hb
  push_cast
  constructor
  · nlinarith
  · ring

/-- Witness for C4 at `start = 0`, `step = 5`, counts `2 × 3`. -/
theorem timestamps_count_start_monotone_witness :
    (0 : Int) < 5 ∧
    ((timestamps 0 5 (2 * 3)).length = 2 * 3 ∧
     (0 < 2 * 3 → (timestamps 0 5 (2 * 3)).head? = some 0) ∧
     (∀ i a b, (timestamps 0 5 (2 * 3))[i]? = some a →
       (timestamps 0 5 (2 * 3))[i + 1]? = some b →
       a < b ∧ b - a = 5)) :=
  ⟨by decide, timestamps_count_start_monotone 0 5 2 3 (by decide)⟩

/-- Claim C6: whenever the builder emits a Feature from a stored position row
whose first two entries are `(lat, lon)`, the emitted `geometry.coordinates`
is `[lon, lat]`. -/
theorem buildFeature_coordinate_swap (i : Nat) (coord : List Int) (t : Int)
    (vl : List Int) (f : Feature) (h : buildFeature i coord t vl = some f) :
    ∃ lat lon, coord[0]? = some lat ∧ coord[1]? = some lon ∧
      f.coordinates = [lon, lat] := by
  simp only [buildFeature, Option.bind_eq_bind, Option.bind_eq_some,
    Option.some.injEq, pure] at h
  obtain ⟨lon, hlon, lat, hlat, v, hv, hf⟩ := h
  exact ⟨lat, lon, hlat, hlon, by rw [← hf]⟩

/-- Witness for C6: position `(lat = 10, lon = 20)` yields
`geometry.coordinates = [20, 10]`. -/
theorem buildFeature_coordinate_swap_witness :
    buildFeature 0 [10, 20] 0 [5] =
      some { coordinates := [20, 10], id := "0", value := 5, time := "0" } ∧
    ∃ lat lon, ([10, 20] : List Int)[0]? = some lat ∧
      ([10, 20] : List Int)[1]? = some lon ∧
      Feature.coordinates
        { coordinates := [20, 10], id := "0", value := 5, time := "0" } =
        [lon, lat] :=
  ⟨rfl, buildFeature_coordinate_swap 0 [10, 20] 0 [5]
    { coordinates := [20, 10], id := "0", value := 5, time := "0" } rfl⟩

/-- Claim C9: constructing a `GeoPlot` from an options mapping that misses any
of the five required keys fails at construction time (the `KeyError` of the
unpacking in `__init__`), so no engine value — and hence no render — is ever
produced. -/
theorem mkGeoPlot_missing_key_fails (config : Config)
    (options : List (String × OptValue))
    (h : options.lookup "cesium_token" = none ∨
         options.lookup "step_time" = none ∨
         options.lookup "coordinates" = none ∨
         options.lookup "feature" = none ∨
         options.lookup "visualization_type" = none) :
    mkGeoPlot config options = none := by
  rcases h with h | h | h | h | h
  · simp [mkGeoPlot, h]
  · cases h1 : options.lookup "cesium_token" <;>
      simp [mkGeoPlot, h1, h]
  · cases h1 : options.lookup "cesium_token" <;>
      cases h2 : options.lookup "step_time" <;>
      simp [mkGeoPlot, h1, h2, h]
  · cases h1 : options.lookup "cesium_token" <;>
      cases h2 : options.lookup "step_time" <;>
      cases h3 : options.lookup "coordinates" <;>
      simp [mkGeoPlot, h1, h2, h3, h]
  · cases h1 : options.lookup "cesium_token" <;>
      cases h2 : options.lookup "step_time" <;>
      cases h3 : options.lookup "coordinates" <;>
      cases h4 : options.lookup "feature" <;>
      simp [mkGeoPlot, h1, h2, h3, h4, h]

/-- Witness for C9: the empty options mapping is rejected. -/
theorem mkGeoPlot_missing_key_fails_witness :
    (([] : List (String × OptValue)).lookup "cesium_token" = none ∨
     ([] : List (String × OptValue)).lookup "step_time" = none ∨
     ([] : List (String × OptValue)).lookup "coordinates" = none ∨
     ([] : List (String × OptValue)).lookup "feature" = none ∨
     ([] : List (String × OptValue)).lookup "visualization_type" = none) ∧
    mkGeoPlot { simulation_metadata :=
      { name := "sim", num_episodes := 1, num_steps_per_episode := 1 } } [] =
      none :=
  ⟨Or.inl rfl,
   mkGeoPlot_missing_key_fails _ [] (Or.inl rfl)⟩

/-- Claim C10 (implicit): construction performs no value validation — any
options mapping binding all five keys is accepted, whatever the bound values
are (including a non-positive `step_time` and a `visualization_type` outside
`color`/`size`), and a `step_time` of 0 later yields a constant timestamp
sequence. -/
theorem mkGeoPlot_no_value_validation (config : Config)
    (options : List (String × OptValue)) (tok st coord feat vt : OptValue)
    (h1 : options.lookup "cesium_token" = some tok)
    (h2 : options.lookup "step_time" = some st)
    (h3 : options.lookup "coordinates" = some coord)
    (h4 : options.lookup "feature" = some feat)
    (h5 : options.lookup "visualization_type" = some vt) :
    mkGeoPlot config options =
      some { config := config, cesium_token := tok, step_time := st,
             entity_position := coord, entity_property := feat,
             visualization_type := vt } ∧
    ∀ (start : Int) (c i : Nat) (a : Int),
      (timestamps start 0 c)[i]? = some a → a = start := by
  constructor
  · simp [mkGeoPlot, h1, h2, h3, h4, h5]
  · intro start c i a ha
    rw [timestamps_getElem?_iff] at ha
    omega

/-- Witness for C10: options with `step_time = 0` and
`visualization_type = "neither"` are accepted verbatim. -/
theorem mkGeoPlot_no_value_validation_witness :
    ([("cesium_token", OptValue.str "tok"), ("step_time", OptValue.num 0),
      ("coordinates", OptValue.str "p"), ("feature", OptValue.str "f"),
      ("visualization_type", OptValue.str "neither")].lookup "cesium_token" =
        some (OptValue.str "tok")) ∧
    (mkGeoPlot { simulation_metadata :=
        { name := "sim", num_episodes := 1, num_steps_per_episode := 2 } }
        [("cesium_token", OptValue.str "tok"), ("step_time", OptValue.num 0),
         ("coordinates", OptValue.str "p"), ("feature", OptValue.str "f"),
         ("visualization_type", OptValue.str "neither")] =
      some { config := { simulation_metadata :=
               { name := "sim", num_episodes := 1,
                 num_steps_per_episode := 2 } },
             cesium_token := OptValue.str "tok",
             step_time := OptValue.num 0,
             entity_position := OptValue.str "p",
             entity_property := OptValue.str "f",
             visualization_type := OptValue.str "neither" } ∧
     ∀ (start : Int) (c i : Nat) (a : Int),
       (timestamps start 0 c)[i]? = some a → a = start) :=
  ⟨rfl, mkGeoPlot_no_value_validation _ _ _ _ _ _ _ rfl rfl rfl rfl rfl⟩

theorem buildFeatures_length (i : Nat) (coord : List Int) :
    ∀ (pairs : List (Int × List Int)) (fs : List Feature),
      buildFeatures i coord pairs = some fs → fs.length = pairs.length := by
  intro pairs
  induction pairs with
  | nil =>
    intro fs h
    simp only [buildFeatures, Option.some.injEq] at h
    rw [← h]
    rfl
  | cons q rest ih =>
    intro fs h
    obtain ⟨t, vl⟩ := q
    simp only [buildFeatures, Option.bind_eq_bind, Option.bind_eq_some,
      Option.pure_def, Option.some.injEq] at h
    obtain ⟨f, hf, fs2, hfs2, hcons⟩ := h
    rw [← hcons, List.length_cons, ih fs2 hfs2]
    rfl

theorem buildFeatures_getElem? (i : Nat) (coord : List Int) :
    ∀ (pairs : List (Int × List Int)) (fs : List Feature),
      buildFeatures i coord pairs = some fs →
      ∀ (j : Nat) (p : Int × List Int), pairs[j]? = some p →
        ∃ f, fs[j]? = some f ∧ buildFeature i coord p.1 p.2 = some f := by
  intro pairs
  induction pairs with
  | nil =>
    intro fs h j p hp
    simp at hp
  | cons q rest ih =>
    intro fs h j p hp
    obtain ⟨t, vl⟩ := q
    simp only [buildFeatures, Option.bind_eq_bind, Option.bind_eq_some,
      Option.pure_def, Option.some.injEq] at h
    obtain ⟨f, hf, fs2, hfs2, hcons⟩ := h
    rw [← hcons]
    cases j with
    | zero =>
      rw [List.getElem?_cons_zero] at hp
      obtain rfl := Option.some.inj hp
      exact ⟨f, by simp, hf⟩
    | succ j =>
      rw [List.getElem?_cons_succ] at hp
      obtain ⟨f2, hf2, hbf2⟩ := ih fs2 hfs2 j p hp
      exact ⟨f2, by simpa using hf2, hbf2⟩

theorem buildFeatures_mem_isSome (i : Nat) (coord : List Int)
    (pairs : List (Int × List Int)) (fs : List Feature)
    (h : buildFeatures i coord pairs = some fs) :
    ∀ p ∈ pairs, (buildFeature i coord p.1 p.2).isSome = true := by
  intro p hp
  obtain ⟨j, hj⟩ := List.mem_iff_getElem?.mp hp
  obtain ⟨f, _, hbf⟩ := buildFeatures_getElem? i coord pairs fs h j p hj
  rw [hbf]
  rfl

theorem buildCollections_length (pairs : List (Int × List Int)) :
    ∀ (entries : List (Nat × List Int)) (fcs : List (List Feature)),
      buildCollections pairs entries = some fcs →
      fcs.length = entries.length := by
  intro entries
  induction entries with
  | nil =>
    intro fcs h
    simp only [buildCollections, Option.some.injEq] at h
    rw [← h]
    rfl
  | cons e rest ih =>
    intro fcs h
    obtain ⟨i, coord⟩ := e
    simp only [buildCollections, Option.bind_eq_bind, Option.bind_eq_some,
      Option.pure_def, Option.some.injEq] at h
    obtain ⟨fc, hfc, fcs2, hfcs2, hcons⟩ := h
    rw [← hcons, List.length_cons, ih fcs2 hfcs2]
    rfl

theorem buildCollections_getElem? (pairs : List (Int × List Int)) :
    ∀ (entries : List (Nat × List Int)) (fcs : List (List Feature)),
      buildCollections pairs entries = some fcs →
      ∀ (k : Nat) (e : Nat × List Int), entries[k]? = some e →
        ∃ fc, fcs[k]? = some fc ∧ buildFeatures e.1 e.2 pairs = some fc := by
  intro entries
  induction entries with
  | nil =>
    intro fcs h k e he
    simp at he
  | cons q rest ih =>
    intro fcs h k e he
    obtain ⟨i, coord⟩ := q
    simp only [buildCollections, Option.bind_eq_bind, Option.bind_eq_some,
      Option.pure_def, Option.some.injEq] at h
    obtain ⟨fc, hfc, fcs2, hfcs2, hcons⟩ := h
    rw [← hcons]
    cases k with
    | zero =>
      rw [List.getElem?_cons_zero] at he
      obtain rfl := Option.some.inj he
      exact ⟨fc, by simp, hfc⟩
    | succ k =>
      rw [List.getElem?_cons_succ] at he
      obtain ⟨fc2, hfc2, hbf2⟩ := ih fcs2 hfcs2 k e he
      exact ⟨fc2, by simpa using hfc2, hbf2⟩

theorem buildCollections_mem_isSome (pairs : List (Int × List Int))
    (entries : List (Nat × List Int)) (fcs : List (List Feature))
    (h : buildCollections pairs entries = some fcs) :
    ∀ e ∈ entries, (buildFeatures e.1 e.2 pairs).isSome = true := by
  intro e he
  obtain ⟨k, hk⟩ := List.mem_iff_getElem?.mp he
  obtain ⟨fc, _, hbf⟩ := buildCollections_getElem? pairs entries fcs h k e hk
  rw [hbf]
  rfl

theorem buildFeature_isSome_index_lt (i : Nat) (coord : List Int) (t : Int)
    (vl : List Int) (h : (buildFeature i coord t vl).isSome = true) :
    i < vl.length := by
  by_contra hge
  have hnone : vl[i]? = none := List.getElem?_eq_none (by omega)
  unfold buildFeature at h
  cases h1 : coord[1]? <;> cases h0 : coord[0]? <;>
    simp [Option.bind_eq_bind, h1, h0, hnone] at h

/-- Claim C1: the builder is a pure transform producing one FeatureCollection
per entity index, in position-array order, and every Feature it emits for
entity `i` at slot `j` has `id = str(i)`, `value = values[j][i]`,
`time` the ISO-8601 form of `timestamps[j]`, and `geometry.coordinates =
[pos[i][1], pos[i][0]]`. (Mutation-freedom is inherent: `buildGeojsons` is a
function of its arguments and leaves them untouched.) -/
theorem buildGeojsons_feature_fields (coords : List (List Int)) (ts : List Int)
    (values : List (List Int)) (gjs : List (List Feature))
    (h : buildGeojsons coords ts values = some gjs) :
    gjs.length = coords.length ∧
    ∀ (i j : Nat) (fc : List Feature) (f : Feature),
      gjs[i]? = some fc → fc[j]? = some f →
      ∃ coord t vl lat lon,
        coords[i]? = some coord ∧ ts[j]? = some t ∧ values[j]? = some vl ∧
        f.id = toString i ∧ vl[i]? = some f.value ∧ f.time = isoformat t ∧
        coord[0]? = some lat ∧ coord[1]? = some lon ∧
        f.coordinates = [lon, lat] := by
  unfold buildGeojsons at h
  have hlen := buildCollections_length _ _ _ h
  refine ⟨by rw [hlen, List.enum_length], ?_⟩
  intro i j fc f hfc hf
  have hi : i < coords.length := by
    have := lt_length_of_getElem? hfc
    rw [hlen, List.enum_length] at this
    exact this
  have hcoord : coords[i]? = some coords[i] := List.getElem?_eq_getElem hi
  have henum : coords.enum[i]? = some (i, coords[i]) := by
    rw [List.getElem?_enum, hcoord]
    rfl
  obtain ⟨fc2, hfc2, hbfs⟩ :=
    buildCollections_getElem? _ _ _ h i (i, coords[i]) henum
  rw [hfc] at hfc2
  obtain rfl := Option.some.inj hfc2
  have hj : j < (ts.zip values).length := by
    have := lt_length_of_getElem? hf
    rw [buildFeatures_length i coords[i] _ _ hbfs] at this
    exact this
  have hpair : (ts.zip values)[j]? = some (ts.zip values)[j] :=
    List.getElem?_eq_getElem hj
  obtain ⟨f2, hf2, hbf⟩ :=
    buildFeatures_getElem? i coords[i] _ _ hbfs j _ hpair
  rw [hf] at hf2
  obtain rfl := Option.some.inj hf2
  obtain ⟨t, vl, hz⟩ : ∃ t vl, (ts.zip values)[j]? = some (t, vl) :=
    ⟨(ts.zip values)[j].1, (ts.zip values)[j].2, by rw [hpair]⟩
  have hz2 := List.getElem?_zip_eq_some.mp hz
  have hp : (ts.zip values)[j] = (t, vl) := Option.some.inj (hpair.symm.trans hz)
  rw [hp] at hbf
  simp only [buildFeature, Option.bind_eq_bind, Option.bind_eq_some,
    Option.pure_def, Option.some.injEq] at hbf
  obtain ⟨lon, hlon, lat, hlat, v, hv, hfeq⟩ := hbf
  refine ⟨coords[i], t, vl, lat, lon, hcoord, hz2.1, hz2.2, ?_, ?_, ?_, hlat,
    hlon, ?_⟩ <;> rw [← hfeq]
  · rw [hv]

/-- Witness for C1 on the one-entity, one-slot builder input. -/
theorem buildGeojsons_feature_fields_witness :
    buildGeojsons [[1, 2]] [0] [[5]] =
      some [[{ coordinates := [2, 1], id := "0", value := 5, time := "0" }]] ∧
    (([[{ coordinates := [2, 1], id := "0", value := 5,
          time := "0" }]] : List (List Feature)).length =
        ([[1, 2]] : List (List Int)).length ∧
     ∀ (i j : Nat) (fc : List Feature) (f : Feature),
       ([[{ coordinates := [2, 1], id := "0", value := 5,
            time := "0" }]] : List (List Feature))[i]? = some fc →
       fc[j]? = some f →
       ∃ coord t vl lat lon,
         ([[1, 2]] : List (List Int))[i]? = some coord ∧
         ([0] : List Int)[j]? = some t ∧
         ([[5]] : List (List Int))[j]? = some vl ∧
         f.id = toString i ∧ vl[i]? = some f.value ∧ f.time = isoformat t ∧
         coord[0]? = some lat ∧ coord[1]? = some lon ∧
         f.coordinates = [lon, lat]) :=
  ⟨rfl, buildGeojsons_feature_fields [[1, 2]] [0] [[5]] _ rfl⟩

/-- Claim C8 counterexample: a feature vector shorter than the entity count
does not always make the builder fail — when zip truncation drops that vector
before it is ever indexed, the builder silently succeeds. Here entity count is
1, the second feature vector `[]` has 0 < 1 entries, yet with a single
timestamp slot the build returns a value. -/
theorem builder_short_vector_not_always_error :
    (([[5], []] : List (List Int))[1]? = some []) ∧
    (([] : List Int).length < ([[1, 2]] : List (List Int)).length) ∧
    (buildGeojsons [[1, 2]] [0] [[5], []]).isSome = true :=
  ⟨rfl, by decide, rfl⟩

/-- Claim C8 amended: for every input where some feature vector that is
actually paired with a timestamp (i.e. survives zip truncation) has fewer
entries than the number of entities in the position array, the builder fails
with a data-shape error (an out-of-range index) rather than silently
truncating. -/
theorem buildGeojsons_paired_short_vector_fails (coords : List (List Int))
    (ts : List Int) (values : List (List Int)) (j : Nat) (t : Int)
    (vl : List Int) (hz : (ts.zip values)[j]? = some (t, vl))
    (hlt : vl.length < coords.length) :
    buildGeojsons coords ts values = none := by
  cases hres : buildGeojsons coords ts values with
  | none => rfl
  | some gjs =>
    exfalso
    unfold buildGeojsons at hres
    have hcoord : coords[vl.length]? = some coords[vl.length] :=
      List.getElem?_eq_getElem hlt
    have henum : coords.enum[vl.length]? = some (vl.length, coords[vl.length]) := by
      rw [List.getElem?_enum, hcoord]
      rfl
    have hmem : (vl.length, coords[vl.length]) ∈ coords.enum :=
      List.getElem?_mem henum
    have hsome := buildCollections_mem_isSome _ _ _ hres _ hmem
    obtain ⟨fs, hfs⟩ := Option.isSome_iff_exists.mp hsome
    have hpmem : (t, vl) ∈ ts.zip values := List.getElem?_mem hz
    have hbf := buildFeatures_mem_isSome _ _ _ _ hfs (t, vl) hpmem
    have hlt2 : vl.length < vl.length := by
      simpa using buildFeature_isSome_index_lt _ _ _ _ hbf
    omega

/-- Witness for the amended C8: two entities, one paired feature vector with a
single entry, so the builder fails. -/
theorem buildGeojsons_paired_short_vector_fails_witness :
    ((([0] : List Int).zip ([[7]] : List (List Int)))[0]? = some (0, [7])) ∧
    (([7] : List Int).length < ([[1, 2], [3, 4]] : List (List Int)).length) ∧
    buildGeojsons [[1, 2], [3, 4]] [0] [[7]] = none :=
  ⟨rfl, by decide,
   buildGeojsons_paired_short_vector_fails [[1, 2], [3, 4]] [0] [[7]] 0 0 [7]
     rfl (by decide)⟩

set_option maxRecDepth 10000 in
/-- Claim C5 counterexample: the GeoJSON bytes are not identical across two
render calls with identical configuration and trajectory, because `render`
samples the wall clock (`pd.Timestamp.utcnow()`) and embeds it in every
Feature's `time` property; two calls at distinct instants (here offsets 0 and
3600) write different text. -/
theorem render_not_clock_independent :
    (render smallGeoPlot smallTrajectory 0).map (fun r => r.geojsonText) ≠
    (render smallGeoPlot smallTrajectory 3600).map
      (fun r => r.geojsonText) := by
  decide

/-- Claim C5 amended: render is deterministic once the clock reading is
fixed — two calls with identical configuration, identical trajectory, and the
same sampled start instant write byte-identical GeoJSON text. -/
theorem render_deterministic_given_start (gp : GeoPlot)
    (traj : List (List Value)) (s1 s2 : Int) (h : s1 = s2) :
    (render gp traj s1).map (fun r => r.geojsonText) =
    (render gp traj s2).map (fun r => r.geojsonText) := by
  rw [h]

/-- Witness for the amended C5 at start instant 0. -/
theorem render_deterministic_given_start_witness :
    (0 : Int) = 0 ∧
    (render smallGeoPlot smallTrajectory 0).map (fun r => r.geojsonText) =
    (render smallGeoPlot smallTrajectory 0).map (fun r => r.geojsonText) :=
  ⟨rfl, render_deterministic_given_start smallGeoPlot smallTrajectory 0 0 rfl⟩

theorem buildCollections_mem_spec (pairs : List (Int × List Int))
    (entries : List (Nat × List Int)) (fcs : List (List Feature))
    (h : buildCollections pairs entries = some fcs) :
    ∀ fc ∈ fcs, ∃ e, e ∈ entries ∧ buildFeatures e.1 e.2 pairs = some fc := by
  intro fc hfc
  obtain ⟨k, hk⟩ := List.mem_iff_getElem?.mp hfc
  have hklt : k < entries.length := by
    rw [← buildCollections_length pairs entries fcs h]
    exact lt_length_of_getElem? hk
  have he : entries[k]? = some entries[k] := List.getElem?_eq_getElem hklt
  obtain ⟨fc2, hfc2, hbf⟩ := buildCollections_getElem? pairs entries fcs h k _ he
  rw [hk] at hfc2
  obtain rfl := Option.some.inj hfc2
  exact ⟨entries[k], List.getElem?_mem he, hbf⟩

theorem buildGeojsons_nil_coords (ts : List Int) (values : List (List Int)) :
    buildGeojsons [] ts values = some [] := rfl

theorem reduceLoop_spec (p q : OptValue) :
    ∀ (eps : List (List Value)) (acc out : List (List Int) × List (List Int)),
      reduceLoop p q eps acc = some out →
      ∃ extra : List (List Int),
        out.2 = acc.2 ++ extra ∧ extra.length = eps.length ∧
        (∀ (j : Nat) (vl : List Int), extra[j]? = some vl →
          ∃ ep st fv, eps[j]? = some ep ∧ ep.getLast? = some st ∧
            q.asStr? = some fv ∧
            (read_var st fv).bind flattenValue = some vl) ∧
        (eps = [] → out.1 = acc.1) ∧
        (eps ≠ [] → ∃ ep st pv, eps.getLast? = some ep ∧
          ep.getLast? = some st ∧ p.asStr? = some pv ∧
          (read_var st pv).bind asCoords = some out.1) := by
  intro eps
  induction eps with
  | nil =>
    intro acc out h
    simp only [reduceLoop, Option.some.injEq] at h
    subst h
    refine ⟨[], by simp, rfl, ?_, fun _ => rfl, fun hne => absurd rfl hne⟩
    intro j vl hj
    simp at hj
  | cons ep rest ih =>
    intro acc out h
    simp only [reduceLoop, reduceStep, Option.bind_eq_bind, Option.bind_eq_some,
      Option.pure_def, Option.some.injEq] at h
    obtain ⟨acc2, ⟨st, hst, pv, hpv, c, hc, fv, hfv, v, hv, hacc2⟩, hrest⟩ := h
    obtain ⟨extra2, hout2, hlen2, hper2, hnil2, hne2⟩ := ih acc2 out hrest
    subst hacc2
    refine ⟨v :: extra2, ?_, by simp [hlen2], ?_, ?_, ?_⟩
    · rw [hout2]
      simp
    · intro j vl hj
      cases j with
      | zero =>
        rw [List.getElem?_cons_zero] at hj
        obtain rfl := Option.some.inj hj
        exact ⟨ep, st, fv, by simp, hst, hfv, Option.bind_eq_some.mpr hv⟩
      | succ j =>
        rw [List.getElem?_cons_succ] at hj
        obtain ⟨ep2, st2, fv2, he2, hs2, hf2, hv2⟩ := hper2 j vl hj
        exact ⟨ep2, st2, fv2, by simpa using he2, hs2, hf2, hv2⟩
    · intro habs
      exact List.noConfusion habs
    · intro _
      cases rest with
      | nil =>
        refine ⟨ep, st, pv, by simp, hst, hpv, ?_⟩
        rw [hnil2 rfl]
        simpa using Option.bind_eq_some.mpr hc
      | cons ep2 rest2 =>
        obtain ⟨ep3, st3, pv3, he3, hs3, hp3, hc3⟩ :=
          hne2 (List.cons_ne_nil ep2 rest2)
        exact ⟨ep3, st3, pv3, by rw [List.getLast?_cons_cons]; exact he3,
          hs3, hp3, hc3⟩

theorem reduceTrajectory_short (p q : OptValue) (traj : List (List Value))
    (h : traj.length ≤ 1) : reduceTrajectory p q traj = some ([], []) := by
  unfold reduceTrajectory
  have h0 : traj.length - 1 = 0 := by omega
  rw [h0, List.take_zero]
  rfl

/-- Claim C3: for every trajectory with at least two episodes, the reducer
visits each episode except the last, takes that episode's final step's
snapshot, and appends the flattened feature array read from it, so the
feature-vector list has length `num_episodes - 1`; the single position array
it outputs is the one read from the last processed episode (index
`num_episodes - 2`). -/
theorem reduceTrajectory_behavior (p q : OptValue)
    (traj : List (List Value)) (coords values : List (List Int))
    (h2 : 2 ≤ traj.length)
    (h : reduceTrajectory p q traj = some (coords, values)) :
    values.length = traj.length - 1 ∧
    (∀ (j : Nat) (vl : List Int), values[j]? = some vl →
      ∃ ep st fv, traj[j]? = some ep ∧ ep.getLast? = some st ∧
        q.asStr? = some fv ∧ (read_var st fv).bind flattenValue = some vl) ∧
    (∃ ep st pv, traj[traj.length - 2]? = some ep ∧ ep.getLast? = some st ∧
      p.asStr? = some pv ∧ (read_var st pv).bind asCoords = some coords) := by
  unfold reduceTrajectory at h
  obtain ⟨extra, hout2, hlen, hper, _, hlast⟩ := reduceLoop_spec p q _ _ _ h
  simp only [List.nil_append] at hout2
  have htklen : (traj.take (traj.length - 1)).length = traj.length - 1 := by
    rw [List.length_take]
    omega
  subst hout2
  refine ⟨by rw [hlen, htklen], ?_, ?_⟩
  · intro j vl hj
    obtain ⟨ep, st, fv, he, hs, hf, hv⟩ := hper j vl hj
    have hjlt : j < traj.length - 1 := by
      rw [← htklen]
      exact lt_length_of_getElem? he
    rw [List.getElem?_take_of_lt hjlt] at he
    exact ⟨ep, st, fv, he, hs, hf, hv⟩
  · have hne : traj.take (traj.length - 1) ≠ [] := by
      intro habs
      rw [← List.length_eq_zero] at habs
      omega
    obtain ⟨ep, st, pv, he, hs, hp, hc⟩ := hlast hne
    rw [List.getLast?_eq_getElem?, htklen] at he
    rw [List.getElem?_take_of_lt (by omega : traj.length - 1 - 1 <
      traj.length - 1)] at he
    have hidx : traj.length - 1 - 1 = traj.length - 2 := by omega
    rw [hidx] at he
    exact ⟨ep, st, pv, he, hs, hp, hc⟩

/-- Witness for C3 on the spec §8 example trajectory. -/
theorem reduceTrajectory_behavior_witness :
    2 ≤ exampleTrajectory.length ∧
    reduceTrajectory (OptValue.str "p") (OptValue.str "f") exampleTrajectory =
      some ([[1, 2], [3, 4]], [[10, 20], [30, 40]]) ∧
    (([[10, 20], [30, 40]] : List (List Int)).length =
        exampleTrajectory.length - 1 ∧
     (∀ (j : Nat) (vl : List Int),
       ([[10, 20], [30, 40]] : List (List Int))[j]? = some vl →
       ∃ ep st fv, exampleTrajectory[j]? = some ep ∧ ep.getLast? = some st ∧
         (OptValue.str "f").asStr? = some fv ∧
         (read_var st fv).bind flattenValue = some vl) ∧
     (∃ ep st pv, exampleTrajectory[exampleTrajectory.length - 2]? = some ep ∧
       ep.getLast? = some st ∧ (OptValue.str "p").asStr? = some pv ∧
       (read_var st pv).bind asCoords = some [[1, 2], [3, 4]])) :=
  ⟨by decide, by rfl,
   reduceTrajectory_behavior (OptValue.str "p") (OptValue.str "f")
     exampleTrajectory [[1, 2], [3, 4]] [[10, 20], [30, 40]]
     (by decide) (by rfl)⟩

/-- Claim C2: for every trajectory the render accepts, the GeoJSON document
has exactly one FeatureCollection per entity of the position array, and each
FeatureCollection has exactly `min(T, number of feature vectors)` Features,
where `T` is the configured `num_episodes * num_steps_per_episode` timestamp
count and the number of feature vectors is the trajectory's episode count
minus one — the `zip` pairing truncates to the shorter sequence. -/
theorem render_cardinality (gp : GeoPlot) (traj : List (List Value))
    (start : Int) (res : RenderResult) (coords values : List (List Int))
    (hres : render gp traj start = some res)
    (hred : reduceTrajectory gp.entity_position gp.entity_property traj =
      some (coords, values)) :
    res.geojsons.length = coords.length ∧
    values.length = traj.length - 1 ∧
    ∀ fc ∈ res.geojsons,
      fc.length = min (gp.config.simulation_metadata.num_episodes *
        gp.config.simulation_metadata.num_steps_per_episode)
        values.length := by
  have hvlen : values.length = traj.length - 1 := by
    unfold reduceTrajectory at hred
    obtain ⟨extra, hout2, hlen, -, -, -⟩ := reduceLoop_spec _ _ _ _ _ hred
    simp only [List.nil_append] at hout2
    rw [hout2, hlen, List.length_take]
    omega
  simp only [render, Option.bind_eq_bind, Option.bind_eq_some,
    Option.pure_def, Option.some.injEq] at hres
  obtain ⟨red, hr, step, hstep, gjs, hgjs, t0, ht0, tN, htN, hresq⟩ := hres
  obtain rfl := Option.some.inj (hr.symm.trans hred)
  have hgeo : res.geojsons = gjs := by
    rw [← hresq]
  unfold buildGeojsons at hgjs
  have hglen := buildCollections_length _ _ _ hgjs
  refine ⟨by rw [hgeo, hglen, List.enum_length], hvlen, ?_⟩
  intro fc hfc
  rw [hgeo] at hfc
  obtain ⟨e, -, hbfs⟩ := buildCollections_mem_spec _ _ _ hgjs fc hfc
  rw [buildFeatures_length _ _ _ _ hbfs, List.length_zip, timestamps_length]

/-- Witness for C2 on the spec §8 example: 2 entities, timestamp count 3,
2 feature vectors, so 2 collections of `min 3 2 = 2` Features each. -/
theorem render_cardinality_witness :
    render exampleGeoPlot exampleTrajectory 0 = some exampleRenderResult ∧
    reduceTrajectory exampleGeoPlot.entity_position
      exampleGeoPlot.entity_property exampleTrajectory =
      some ([[1, 2], [3, 4]], [[10, 20], [30, 40]]) ∧
    (exampleRenderResult.geojsons.length =
        ([[1, 2], [3, 4]] : List (List Int)).length ∧
     ([[10, 20], [30, 40]] : List (List Int)).length =
        exampleTrajectory.length - 1 ∧
     ∀ fc ∈ exampleRenderResult.geojsons,
       fc.length =
         min (exampleGeoPlot.config.simulation_metadata.num_episodes *
           exampleGeoPlot.config.simulation_metadata.num_steps_per_episode)
           ([[10, 20], [30, 40]] : List (List Int)).length) :=
  ⟨by rfl, by rfl,
   render_cardinality exampleGeoPlot exampleTrajectory 0 exampleRenderResult
     [[1, 2], [3, 4]] [[10, 20], [30, 40]] (by rfl) (by rfl)⟩

/-- Claim C7: a trajectory with fewer than two episodes (given a positive
configured timestamp count and a numeric step interval) does not make render
fail: it writes an empty GeoJSON document — the empty list of
FeatureCollections, serialized as `[]`. -/
theorem render_few_episodes_empty (gp : GeoPlot) (traj : List (List Value))
    (start s : Int) (h1 : traj.length ≤ 1)
    (h2 : 0 < gp.config.simulation_metadata.num_episodes *
      gp.config.simulation_metadata.num_steps_per_episode)
    (h3 : gp.step_time.asInt? = some s) :
    (render gp traj start).map (fun r => (r.geojsons, r.geojsonText)) =
      some ([], "[]") := by
  unfold render
  rw [reduceTrajectory_short _ _ _ h1, h3]
  simp only [Option.bind_eq_bind, Option.some_bind]
  rw [buildGeojsons_nil_coords, Option.some_bind,
    timestamps_head? _ _ _ h2, Option.some_bind,
    timestamps_getLast? _ _ _ h2, Option.some_bind]
  rfl

/-- Witness for C7: the empty trajectory under the one-slot engine. -/
theorem render_few_episodes_empty_witness :
    ([] : List (List Value)).length ≤ 1 ∧
    0 < smallGeoPlot.config.simulation_metadata.num_episodes *
      smallGeoPlot.config.simulation_metadata.num_steps_per_episode ∧
    smallGeoPlot.step_time.asInt? = some 60 ∧
    (render smallGeoPlot [] 0).map (fun r => (r.geojsons, r.geojsonText)) =
      some ([], "[]") :=
  ⟨by decide, by decide, rfl,
   render_few_episodes_empty smallGeoPlot [] 0 60 (by decide) (by decide) rfl⟩

end GeoplotModel
